import Mathlib

/-!
Verification of the DashCam-Home media pipeline orchestration layer:
the stream process supervisor (`backend/stream_processor.py`), the
recording controller (`backend/recording_manager.py`) and the motion
poller (`backend/motion_detector.py`), shallowly embedded in Lean.

Python dictionaries keyed by camera id are modelled as association
lists with update/delete helpers; external effects (process spawning,
signal delivery, filesystem stat/unlink, the entropy source behind
`secrets.token_urlsafe`) are modelled as explicit oracle parameters.
-/

namespace DashCam

/-! ## Python `dict` model -/

/-- `d.get(k)`: first binding for `k`, if any. -/
def dictGet {α : Type} (d : List (String × α)) (k : String) : Option α :=
  (d.find? (fun p => p.1 == k)).map Prod.snd

/-- `d[k] = v`: replace any binding for `k` by a single binding `k ↦ v`. -/
def dictSet {α : Type} (d : List (String × α)) (k : String) (v : α) :
    List (String × α) :=
  d.filter (fun p => !(p.1 == k)) ++ [(k, v)]

/-- `del d[k]`: drop every binding for `k`. -/
def dictDel {α : Type} (d : List (String × α)) (k : String) :
    List (String × α) :=
  d.filter (fun p => !(p.1 == k))

/-- `k in d`. -/
def dictHas {α : Type} (d : List (String × α)) (k : String) : Bool :=
  (dictGet d k).isSome

/-- Number of bindings registered for key `k`. -/
def keyCount {α : Type} (d : List (String × α)) (k : String) : Nat :=
  (d.filter (fun p => p.1 == k)).length

/-! ## `secrets.token_urlsafe(16)` -/

/-- The URL-safe base64 alphabet used by `secrets.token_urlsafe`. -/
def b64UrlAlphabet : List Char :=
  "ABCDEFGHIJKLMNOPQRSTUVWXYZabcdefghijklmnopqrstuvwxyz0123456789-_".toList

def b64Char (n : Nat) : Char := b64UrlAlphabet.getD (n % 64) 'A'

/-- Padding-free URL-safe base64 of a byte sequence, three bytes at a time. -/
def b64UrlEncode : List Nat → List Char
  | [] => []
  | [b1] => [b64Char (b1 / 4), b64Char (b1 % 4 * 16)]
  | [b1, b2] => [b64Char (b1 / 4), b64Char (b1 % 4 * 16 + b2 / 16),
                 b64Char (b2 % 16 * 4)]
  | b1 :: b2 :: b3 :: rest =>
      b64Char (b1 / 4) :: b64Char (b1 % 4 * 16 + b2 / 16) ::
      b64Char (b2 % 16 * 4 + b3 / 64) :: b64Char (b3 % 64) ::
      b64UrlEncode rest

/-- `secrets.token_urlsafe(nbytes)` applied to the drawn entropy bytes. -/
def tokenUrlsafe (entropy : List Nat) : String :=
  String.mk (b64UrlEncode entropy)

/-- Length of the padding-free base64 text of `n` bytes. -/
def b64Len : Nat → Nat
  | 0 => 0
  | 1 => 2
  | 2 => 3
  | n + 3 => 4 + b64Len n

theorem b64UrlEncode_length (bs : List Nat) :
    (b64UrlEncode bs).length = b64Len bs.length := by
  induction bs using b64UrlEncode.induct <;>
    (simp [b64UrlEncode, b64Len, *]; try omega)

theorem tokenUrlsafe_length_of_16 (entropy : List Nat)
    (h : entropy.length = 16) : (tokenUrlsafe entropy).length = 22 := by
  have : (b64UrlEncode entropy).length = b64Len entropy.length :=
    b64UrlEncode_length entropy
  simp [tokenUrlsafe, String.length, this, h, b64Len]

/-! ## StreamProcessor and RecordingManager shared state -/

/-- The mutable per-camera tables: `StreamProcessor.processes`,
`StreamProcessor.stream_tokens` and `RecordingManager.recording_processes`.
Process handles are identified by a numeric pid. -/
structure SystemState where
  processes : List (String × Nat)
  stream_tokens : List (String × String)
  recording_processes : List (String × Nat)
  deriving DecidableEq, Repr

def initState : SystemState := ⟨[], [], []⟩

/-- `StreamProcessor.generate_stream_token`: draw a token from the entropy
source, store it for the camera (overwriting any prior one) and return it. -/
def generate_stream_token (s : SystemState) (camera_id : String)
    (entropy : List Nat) : String × SystemState :=
  let token := tokenUrlsafe entropy
  (token, { s with stream_tokens := dictSet s.stream_tokens camera_id token })

/-- `StreamProcessor.verify_stream_token`:
`self.stream_tokens.get(camera_id) == token`. -/
def verify_stream_token (s : SystemState) (camera_id token : String) : Bool :=
  match dictGet s.stream_tokens camera_id with
  | some t => t == token
  | none => false

/-- `StreamProcessor.start_hls_stream`. The subprocess spawn is an oracle:
`none` means `Popen` (or the directory setup) raised, in which case the
exception is caught, nothing is registered and `False` is returned; `some pid`
means the spawn succeeded, in which case the process is registered under the
camera id and `True` is returned. No pre-existing registration is checked. -/
def start_hls_stream (s : SystemState) (camera_id : String)
    (spawn : Option Nat) : Bool × SystemState :=
  match spawn with
  | none => (false, s)
  | some pid =>
      (true, { s with processes := dictSet s.processes camera_id pid })

/-- The externally observable calls `stop_stream` makes on the process. -/
inductive Call where
  | terminate
  | kill
  deriving DecidableEq, Repr

/-- `StreamProcessor.stop_stream`. `termRaises` is the oracle for whether
`process.terminate()` raises; on an exception the handler calls
`process.kill()`. Either way the process and token entries are deleted and
`True` is returned; with no registered process nothing happens and `False`
is returned. Returns (result, calls made on the process, new state). -/
def stop_stream (s : SystemState) (camera_id : String) (termRaises : Bool) :
    Bool × List Call × SystemState :=
  if dictHas s.processes camera_id then
    let calls := if termRaises then [Call.terminate, Call.kill]
                 else [Call.terminate]
    (true, calls,
      { s with processes := dictDel s.processes camera_id,
               stream_tokens := dictDel s.stream_tokens camera_id })
  else
    (false, [], s)

/-- A crash event as logged by `_monitor_process` when the exit was
unexpected: camera id and the process's exit code. -/
structure CrashEvent where
  camera_id : String
  returncode : Int
  deriving DecidableEq, Repr

/-- Tail of `StreamProcessor._monitor_process`, run once the monitored
process has exited with `returncode`: if the camera id is still in
`processes` the exit is logged as a crash and both table entries are
removed; otherwise nothing is mutated and nothing is logged as a crash. -/
def monitor_on_exit (s : SystemState) (camera_id : String)
    (returncode : Int) : Option CrashEvent × SystemState :=
  if dictHas s.processes camera_id then
    (some ⟨camera_id, returncode⟩,
      { s with processes := dictDel s.processes camera_id,
               stream_tokens := dictDel s.stream_tokens camera_id })
  else
    (none, s)

/-- `RecordingManager.start_recording`. Oracles: `cameraFound` for the
camera registry lookup, `spawn` for `Popen` as in `start_hls_stream`.
Fails (returns `none`) without mutation when a recording is already
registered, the camera is unknown, or the spawn raises. -/
def start_recording (s : SystemState) (camera_id : String)
    (cameraFound : Bool) (spawn : Option Nat) :
    Option String × SystemState :=
  if dictHas s.recording_processes camera_id then (none, s)
  else if !cameraFound then (none, s)
  else
    match spawn with
    | none => (none, s)
    | some pid =>
        (some (camera_id ++ "_recording_active"),
          { s with recording_processes := dictSet s.recording_processes camera_id pid })

/-- `RecordingManager.stop_recording`: `False` and no mutation when no
recording is registered; otherwise the entry is deleted and `True` returned
whatever the outcome of the graceful-quit/wait/kill interaction. -/
def stop_recording (s : SystemState) (camera_id : String) :
    Bool × SystemState :=
  if dictHas s.recording_processes camera_id then
    (true, { s with recording_processes := dictDel s.recording_processes camera_id })
  else
    (false, s)

/-! ## Operation sequences over the shared tables -/

inductive Op where
  | streamStart (cid : String) (spawn : Option Nat)
  | streamStop (cid : String) (termRaises : Bool)
  | recStart (cid : String) (cameraFound : Bool) (spawn : Option Nat)
  | recStop (cid : String)
  | monitorExit (cid : String) (returncode : Int)
  deriving DecidableEq, Repr

def step (s : SystemState) : Op → SystemState
  | .streamStart cid spawn => (start_hls_stream s cid spawn).2
  | .streamStop cid termRaises => (stop_stream s cid termRaises).2.2
  | .recStart cid cameraFound spawn =>
      (start_recording s cid cameraFound spawn).2
  | .recStop cid => (stop_recording s cid).2
  | .monitorExit cid returncode => (monitor_on_exit s cid returncode).2

def run (s : SystemState) : List Op → SystemState
  | [] => s
  | op :: ops => run (step s op) ops

/-- At most one stream process, one token and one recording process are
registered per camera id. -/
def AtMostOne (s : SystemState) : Prop :=
  ∀ cid, keyCount s.processes cid ≤ 1 ∧
    keyCount s.stream_tokens cid ≤ 1 ∧
    keyCount s.recording_processes cid ≤ 1

/-! ### Key-count lemmas -/

theorem keyCount_append {α : Type} (a b : List (String × α)) (k : String) :
    keyCount (a ++ b) k = keyCount a k + keyCount b k := by
  simp [keyCount, List.filter_append]

theorem keyCount_filterOut {α : Type} (d : List (String × α))
    (k k' : String) :
    keyCount (d.filter (fun p => !(p.1 == k))) k' =
      if k' = k then 0 else keyCount d k' := by
  induction d with
  | nil => simp [keyCount]
  | cons p d ih =>
      by_cases h1 : p.1 = k <;> by_cases h2 : k' = k <;>
        by_cases h3 : p.1 = k' <;>
        simp_all [keyCount, List.filter_cons]

theorem keyCount_dictDel {α : Type} (d : List (String × α)) (k : String)
    (k' : String) :
    keyCount (dictDel d k) k' = if k' = k then 0 else keyCount d k' :=
  keyCount_filterOut d k k'

theorem keyCount_dictSet {α : Type} (d : List (String × α)) (k : String)
    (v : α) (k' : String) :
    keyCount (dictSet d k v) k' = if k' = k then 1 else keyCount d k' := by
  unfold dictSet
  rw [keyCount_append, keyCount_filterOut]
  by_cases h : k' = k <;> simp [keyCount, h, List.filter_cons]
  · exact fun hne => h hne.symm

theorem atMostOne_step (s : SystemState) (op : Op) (h : AtMostOne s) :
    AtMostOne (step s op) := by
  intro cid
  rcases h cid with ⟨h1, h2, h3⟩
  cases op with
  | streamStart c spawn =>
      cases spawn with
      | none => exact ⟨h1, h2, h3⟩
      | some pid =>
          refine ⟨?_, h2, h3⟩
          simp only [step, start_hls_stream]
          rw [keyCount_dictSet]
          split <;> omega
  | streamStop c termRaises =>
      simp only [step, stop_stream]
      by_cases hc : dictHas s.processes c
      · simp only [hc, if_true]
        constructor
        · rw [keyCount_dictDel]; split <;> omega
        constructor
        · rw [keyCount_dictDel]; split <;> omega
        · exact h3
      · simp only [hc]
        simp only [Bool.false_eq_true, if_false]
        exact ⟨h1, h2, h3⟩
  | recStart c cameraFound spawn =>
      simp only [step, start_recording]
      by_cases hc : dictHas s.recording_processes c
      · simp only [hc, if_true]
        exact ⟨h1, h2, h3⟩
      · simp only [hc]
        simp only [Bool.false_eq_true, if_false]
        cases cameraFound with
        | false => exact ⟨h1, h2, h3⟩
        | true =>
            cases spawn with
            | none => exact ⟨h1, h2, h3⟩
            | some pid =>
                refine ⟨h1, h2, ?_⟩
                simp only [Bool.not_true, Bool.false_eq_true, if_false]
                rw [keyCount_dictSet]
                split <;> omega
  | recStop c =>
      simp only [step, stop_recording]
      by_cases hc : dictHas s.recording_processes c
      · simp only [hc, if_true]
        refine ⟨h1, h2, ?_⟩
        rw [keyCount_dictDel]; split <;> omega
      · simp only [hc]
        simp only [Bool.false_eq_true, if_false]
        exact ⟨h1, h2, h3⟩
  | monitorExit c rc =>
      simp only [step, monitor_on_exit]
      by_cases hc : dictHas s.processes c
      · simp only [hc, if_true]
        constructor
        · rw [keyCount_dictDel]; split <;> omega
        constructor
        · rw [keyCount_dictDel]; split <;> omega
        · exact h3
      · simp only [hc]
        simp only [Bool.false_eq_true, if_false]
        exact ⟨h1, h2, h3⟩

theorem atMostOne_run (s : SystemState) (h : AtMostOne s) :
    ∀ ops : List Op, AtMostOne (run s ops) := by
  intro ops
  induction ops generalizing s with
  | nil => exact h
  | cons op rest ih => exact ih (step s op) (atMostOne_step s op h)

theorem atMostOne_init : AtMostOne initState := by
  intro cid
  refine ⟨?_, ?_, ?_⟩ <;> simp [initState, keyCount]

/-! ### Lookup lemmas -/

theorem dictGet_dictSet_self {α : Type} (d : List (String × α)) (k : String)
    (v : α) : dictGet (dictSet d k v) k = some v := by
  induction d with
  | nil => simp [dictGet, dictSet, List.find?]
  | cons p d ih =>
      by_cases h : p.1 = k <;>
        simp_all [dictGet, dictSet, List.filter_cons, List.find?_cons]

theorem dictGet_dictDel_self {α : Type} (d : List (String × α))
    (k : String) : dictGet (dictDel d k) k = none := by
  induction d with
  | nil => simp [dictGet, dictDel]
  | cons p d ih =>
      by_cases h : p.1 = k <;>
        simp_all [dictGet, dictDel, List.filter_cons, List.find?_cons]

theorem dictHas_dictDel_self {α : Type} (d : List (String × α))
    (k : String) : dictHas (dictDel d k) k = false := by
  simp [dictHas, dictGet_dictDel_self]

/-! ## Claim C1 -/

/-- C1 (counterexample): with a StreamProcess already registered for
"cam1", a further `start_hls_stream` for "cam1" with a successful spawn
neither fails nor registers nothing: it returns `true` and replaces the
registered process. -/
theorem C1_start_overwrites_counterexample :
    (start_hls_stream ⟨[("cam1", 1)], [], []⟩ "cam1" (some 2)).1 = true ∧
    (start_hls_stream ⟨[("cam1", 1)], [], []⟩ "cam1" (some 2)).2.processes
      = [("cam1", 2)] ∧
    ¬ ((start_hls_stream ⟨[("cam1", 1)], [], []⟩ "cam1" (some 2)).1 = false ∧
       (start_hls_stream ⟨[("cam1", 1)], [], []⟩ "cam1" (some 2)).2
         = ⟨[("cam1", 1)], [], []⟩) := by
  decide

/-- C1 (amended): at every state reachable from the empty tables under any
sequence of stream-start, stream-stop, recording-start, recording-stop and
monitor-cleanup operations, at most one StreamProcess, one token and one
RecordingProcess are registered per camera id; a recording-start while a
RecordingProcess is registered fails and registers nothing new; a
stream-start with a successful spawn while a StreamProcess is registered
does not fail — it succeeds and replaces the registered entry. -/
theorem C1_at_most_one_per_camera :
    (∀ ops : List Op, AtMostOne (run initState ops)) ∧
    (∀ (s : SystemState) (cid : String) (found : Bool) (spawn : Option Nat),
        dictHas s.recording_processes cid = true →
        start_recording s cid found spawn = (none, s)) ∧
    (∀ (s : SystemState) (cid : String) (pid : Nat),
        (start_hls_stream s cid (some pid)).1 = true ∧
        dictGet (start_hls_stream s cid (some pid)).2.processes cid
          = some pid) := by
  refine ⟨fun ops => atMostOne_run initState atMostOne_init ops, ?_, ?_⟩
  · intro s cid found spawn h
    simp [start_recording, h]
  · intro s cid pid
    exact ⟨rfl, by simp [start_hls_stream, dictGet_dictSet_self]⟩

theorem C1_at_most_one_per_camera_witness :
    AtMostOne (run initState
      [Op.streamStart "cam1" (some 1), Op.recStart "cam1" true (some 2)]) ∧
    start_recording ⟨[], [], [("cam1", 2)]⟩ "cam1" true (some 3)
      = (none, ⟨[], [], [("cam1", 2)]⟩) ∧
    (start_hls_stream initState "cam1" (some 1)).1 = true :=
  ⟨C1_at_most_one_per_camera.1 _,
   C1_at_most_one_per_camera.2.1 ⟨[], [], [("cam1", 2)]⟩ "cam1" true (some 3)
     (by decide),
   (C1_at_most_one_per_camera.2.2 initState "cam1" 1).1⟩

/-! ## Claim C2 -/

/-- C2: immediately after issuing a token for a camera (with the 16 entropy
bytes `secrets.token_urlsafe(16)` draws), verifying that token succeeds and
verifying "wrong" fails; issuing overwrites the prior registration, so any
previously issued token distinct from the fresh one no longer verifies; and
issuance succeeds and registers the token in any state, in particular with
no stream process registered for the camera. -/
theorem C2_issue_then_verify (s : SystemState) (cid : String)
    (entropy : List Nat) (h16 : entropy.length = 16) (t0 : String)
    (ht0 : t0 ≠ (generate_stream_token s cid entropy).1) :
    verify_stream_token (generate_stream_token s cid entropy).2 cid
      (generate_stream_token s cid entropy).1 = true ∧
    verify_stream_token (generate_stream_token s cid entropy).2 cid
      "wrong" = false ∧
    verify_stream_token (generate_stream_token s cid entropy).2 cid
      t0 = false ∧
    dictGet (generate_stream_token s cid entropy).2.stream_tokens cid
      = some (generate_stream_token s cid entropy).1 := by
  have hget : dictGet
      (generate_stream_token s cid entropy).2.stream_tokens cid
      = some (tokenUrlsafe entropy) := by
    simp [generate_stream_token, dictGet_dictSet_self]
  have hwrong : tokenUrlsafe entropy ≠ "wrong" := by
    intro heq
    have hlen := tokenUrlsafe_length_of_16 entropy h16
    rw [heq] at hlen
    simp [String.length] at hlen
  have h1 : (generate_stream_token s cid entropy).1 = tokenUrlsafe entropy :=
    rfl
  refine ⟨?_, ?_, ?_, hget⟩
  · simp only [verify_stream_token, hget, h1]
    exact beq_self_eq_true _
  · simp only [verify_stream_token, hget]
    simp [hwrong]
  · have hne : tokenUrlsafe entropy ≠ t0 := by
      intro heq
      exact ht0 (h1 ▸ heq).symm
    simp only [verify_stream_token, hget]
    simp [hne]

theorem C2_issue_then_verify_witness :
    verify_stream_token
      (generate_stream_token initState "cam1" (List.replicate 16 0)).2 "cam1"
      (generate_stream_token initState "cam1" (List.replicate 16 0)).1
      = true ∧
    verify_stream_token
      (generate_stream_token initState "cam1" (List.replicate 16 0)).2 "cam1"
      "wrong" = false ∧
    verify_stream_token
      (generate_stream_token initState "cam1" (List.replicate 16 0)).2 "cam1"
      "x" = false ∧
    dictGet (generate_stream_token initState "cam1"
        (List.replicate 16 0)).2.stream_tokens "cam1"
      = some (generate_stream_token initState "cam1"
          (List.replicate 16 0)).1 :=
  C2_issue_then_verify initState "cam1" (List.replicate 16 0) (by decide)
    "x" (by decide)

/-! ## Claim C3 -/

/-- C3: token verification returns false when no token is registered for
the camera, returns false when the registered token differs from the
presented value, and returns true exactly on a match with the registered
token. -/
theorem C3_verify_characterisation (s : SystemState) (cid token : String) :
    (dictGet s.stream_tokens cid = none →
      verify_stream_token s cid token = false) ∧
    (∀ t, dictGet s.stream_tokens cid = some t →
      (verify_stream_token s cid token = true ↔ token = t)) := by
  constructor
  · intro h
    simp [verify_stream_token, h]
  · intro t h
    simp only [verify_stream_token, h]
    rw [beq_iff_eq]
    exact eq_comm

theorem C3_verify_characterisation_witness :
    verify_stream_token initState "cam1" "x" = false ∧
    (verify_stream_token ⟨[], [("cam1", "t0")], []⟩ "cam1" "x" = true
      ↔ ("x" : String) = "t0") :=
  ⟨(C3_verify_characterisation initState "cam1" "x").1 (by decide),
   (C3_verify_characterisation ⟨[], [("cam1", "t0")], []⟩ "cam1" "x").2
     "t0" (by decide)⟩

/-! ## Claim C4 -/

/-- C4: `stop_stream` returns true iff a StreamProcess is registered for
the camera; with none registered it returns false and mutates nothing; with
one registered the process entry and its token are removed before it
returns, and the resulting state is the same whether or not termination of
the external process raised. -/
theorem C4_stop_stream_cleanup (s : SystemState) (cid : String)
    (termRaises : Bool) :
    ((stop_stream s cid termRaises).1 = true ↔
      dictHas s.processes cid = true) ∧
    (dictHas s.processes cid = false →
      stop_stream s cid termRaises = (false, [], s)) ∧
    (dictHas s.processes cid = true →
      dictHas (stop_stream s cid termRaises).2.2.processes cid = false ∧
      dictGet (stop_stream s cid termRaises).2.2.stream_tokens cid = none ∧
      (stop_stream s cid termRaises).2.2.recording_processes
        = s.recording_processes) ∧
    (stop_stream s cid true).2.2 = (stop_stream s cid false).2.2 := by
  refine ⟨?_, ?_, ?_, ?_⟩
  · by_cases h : dictHas s.processes cid <;> simp [stop_stream, h]
  · intro h
    simp [stop_stream, h]
  · intro h
    simp [stop_stream, h, dictHas_dictDel_self, dictGet_dictDel_self]
  · by_cases h : dictHas s.processes cid <;> simp [stop_stream, h]

theorem C4_stop_stream_cleanup_witness :
    ((stop_stream ⟨[("cam1", 1)], [("cam1", "t")], []⟩ "cam1" false).1 = true
      ↔ dictHas ([("cam1", 1)] : List (String × Nat)) "cam1" = true) ∧
    stop_stream initState "cam1" false = (false, [], initState) ∧
    dictHas (stop_stream ⟨[("cam1", 1)], [("cam1", "t")], []⟩ "cam1"
        false).2.2.processes "cam1" = false :=
  ⟨(C4_stop_stream_cleanup ⟨[("cam1", 1)], [("cam1", "t")], []⟩ "cam1"
      false).1,
   (C4_stop_stream_cleanup initState "cam1" false).2.1 (by decide),
   ((C4_stop_stream_cleanup ⟨[("cam1", 1)], [("cam1", "t")], []⟩ "cam1"
      false).2.2.1 (by decide)).1⟩

/-! ## Claim C5 -/

/-- Modelled response of the external process to the calls `stop_stream`
makes: `exitsOnTerm` says whether the process exits promptly on the
termination signal. When `process.terminate()` raises, no termination
signal was delivered but the handler's `process.kill()` ends the process;
when it succeeds, no kill is ever issued and no wait is performed, so the
process survives exactly when it does not exit on the termination
signal. -/
def aliveAfterStop (exitsOnTerm termRaises : Bool) : Bool :=
  if termRaises then false else !exitsOnTerm

/-- C5 (counterexample): with "cam1" registered and `terminate()`
succeeding, `stop_stream` makes only the terminate call — no wait and no
force-kill — so a process that does not exit on the termination signal is
still alive after `stop_stream` returns, contradicting the claimed
guarantee that the process has been terminated or killed. -/
theorem C5_no_grace_kill_counterexample :
    (stop_stream ⟨[("cam1", 1)], [("cam1", "t")], []⟩ "cam1" false).2.1
      = [Call.terminate] ∧
    Call.kill ∉ (stop_stream ⟨[("cam1", 1)], [("cam1", "t")], []⟩ "cam1"
      false).2.1 ∧
    aliveAfterStop false false = true := by
  decide

/-- C5 (amended): for a camera with a registered StreamProcess,
`stop_stream` requests graceful signal-based termination; it force-kills
only when the terminate call itself raises, and it performs no bounded
wait, so after it returns the process is dead iff the terminate call raised
(kill path) or the process exited on the termination signal. -/
theorem C5_stop_signalling (s : SystemState) (cid : String)
    (termRaises : Bool) (h : dictHas s.processes cid = true) :
    (stop_stream s cid termRaises).2.1
      = (if termRaises then [Call.terminate, Call.kill]
         else [Call.terminate]) ∧
    (∀ exitsOnTerm : Bool,
      aliveAfterStop exitsOnTerm termRaises
        = (!termRaises && !exitsOnTerm)) := by
  constructor
  · simp [stop_stream, h]
  · intro e
    cases e <;> cases termRaises <;> rfl

theorem C5_stop_signalling_witness :
    (stop_stream ⟨[("cam1", 1)], [("cam1", "t")], []⟩ "cam1" true).2.1
      = [Call.terminate, Call.kill] ∧
    aliveAfterStop true true = false := by
  have h := C5_stop_signalling ⟨[("cam1", 1)], [("cam1", "t")], []⟩ "cam1"
    true (by decide)
  exact ⟨h.1, h.2 true⟩

/-! ## Claim C6 -/

/-- C6: when a monitored stream process exits, if the StreamProcess entry
for the camera id is still registered the exit is logged as a crash event
carrying the exit code and both the process entry and the token are
removed; if the entry is no longer registered the monitor mutates nothing
and logs no crash. -/
theorem C6_monitor_exit (s : SystemState) (cid : String) (rc : Int) :
    (dictHas s.processes cid = true →
      (monitor_on_exit s cid rc).1 = some ⟨cid, rc⟩ ∧
      dictHas (monitor_on_exit s cid rc).2.processes cid = false ∧
      dictGet (monitor_on_exit s cid rc).2.stream_tokens cid = none) ∧
    (dictHas s.processes cid = false →
      monitor_on_exit s cid rc = (none, s)) := by
  constructor
  · intro h
    simp [monitor_on_exit, h, dictHas_dictDel_self, dictGet_dictDel_self]
  · intro h
    simp [monitor_on_exit, h]

theorem C6_monitor_exit_witness :
    (monitor_on_exit ⟨[("cam1", 1)], [("cam1", "t")], []⟩ "cam1" 255).1
      = some ⟨"cam1", 255⟩ ∧
    monitor_on_exit initState "cam1" 255 = (none, initState) :=
  ⟨((C6_monitor_exit ⟨[("cam1", 1)], [("cam1", "t")], []⟩ "cam1" 255).1
      (by decide)).1,
   (C6_monitor_exit initState "cam1" 255).2 (by decide)⟩

/-! ## MotionDetector trigger step (`motion_detector.py` lines 101-109) -/

/-- The cooldown-guarded trigger taken by `MotionDetector._run` once motion
is detected on camera `cam_id` at time `now` (seconds): with `last_seen`
the stored last-trigger time (`0` when absent), the recording is started
and the timestamp stored only when `now - last_seen > cooldown`; otherwise
nothing happens. Returns whether `start_recording` was invoked, and the
updated `last_triggered` table. -/
def motion_trigger (last_triggered : List (String × Int)) (cam_id : String)
    (now cooldown : Int) : Bool × List (String × Int) :=
  let last_seen := (dictGet last_triggered cam_id).getD 0
  if now - last_seen > cooldown then
    (true, dictSet last_triggered cam_id now)
  else
    (false, last_triggered)

/-- C7: with cooldown `C`, a first motion event at `t1` clearing the
cooldown fires `start_recording` and stores `t1`; a second event at `t2`
with `t2 - t1 < C` is suppressed with no state change, so exactly one call
is made and the timestamp was updated only by the first; with `t2 - t1 > C`
the second event also fires and stores `t2`, so two calls are made; and in
general a detection landing strictly inside the cooldown window makes no
recording call and leaves the table unchanged. -/
theorem C7_motion_cooldown (lt : List (String × Int)) (cid : String)
    (t1 t2 C : Int) (hfire : t1 - (dictGet lt cid).getD 0 > C) :
    (motion_trigger lt cid t1 C).1 = true ∧
    dictGet (motion_trigger lt cid t1 C).2 cid = some t1 ∧
    (t2 - t1 < C →
      motion_trigger (motion_trigger lt cid t1 C).2 cid t2 C
        = (false, (motion_trigger lt cid t1 C).2)) ∧
    (t2 - t1 > C →
      (motion_trigger (motion_trigger lt cid t1 C).2 cid t2 C).1 = true ∧
      dictGet (motion_trigger (motion_trigger lt cid t1 C).2 cid t2 C).2 cid
        = some t2) ∧
    (∀ (lt' : List (String × Int)) (now : Int),
      now - (dictGet lt' cid).getD 0 < C →
      motion_trigger lt' cid now C = (false, lt')) := by
  have hstep : motion_trigger lt cid t1 C = (true, dictSet lt cid t1) := by
    simp [motion_trigger, hfire]
  have hget : dictGet (motion_trigger lt cid t1 C).2 cid = some t1 := by
    rw [hstep]
    exact dictGet_dictSet_self lt cid t1
  refine ⟨by rw [hstep], hget, ?_, ?_, ?_⟩
  · intro h2
    rw [hstep]
    simp only [motion_trigger, dictGet_dictSet_self, Option.getD_some]
    rw [if_neg (by omega)]
  · intro h2
    rw [hstep]
    simp only [motion_trigger, dictGet_dictSet_self, Option.getD_some]
    rw [if_pos (by omega)]
    exact ⟨rfl, dictGet_dictSet_self _ cid t2⟩
  · intro lt' now h
    simp only [motion_trigger]
    rw [if_neg (by omega)]

theorem C7_motion_cooldown_witness :
    (motion_trigger [] "cam1" 100 60).1 = true ∧
    motion_trigger (motion_trigger [] "cam1" 100 60).2 "cam1" 130 60
      = (false, (motion_trigger [] "cam1" 100 60).2) ∧
    (motion_trigger (motion_trigger [] "cam1" 100 60).2 "cam1" 200 60).1
      = true := by
  have hnear := C7_motion_cooldown [] "cam1" 100 130 60 (by decide)
  have hfar := C7_motion_cooldown [] "cam1" 100 200 60 (by decide)
  exact ⟨hnear.1, hnear.2.2.1 (by decide), (hfar.2.2.2.1 (by decide)).1⟩

/-! ## Filesystem model for `get_recordings` and `_cleanup_old_files` -/

/-- A file in one of the managed directories: name, last-modified time in
seconds, and size in bytes. -/
structure FileEntry where
  name : String
  mtime : Int
  size : Nat
  deriving DecidableEq, Repr

/-- The dict `get_recordings` returns per clip: filename, size, and the
`created` field, which the source fills with the file's mtime. -/
structure RecordingInfo where
  filename : String
  size : Nat
  created : Int
  deriving DecidableEq, Repr

def recInfo (f : FileEntry) : RecordingInfo := ⟨f.name, f.size, f.mtime⟩

/-- Char-list prefix test. -/
def listPre : List Char → List Char → Bool
  | [], _ => true
  | _ :: _, [] => false
  | a :: as, b :: bs => a == b && listPre as bs

/-- A flat-directory name matches the glob `pre*suf`: it starts with
`pre`, ends with `suf`, and is long enough that the two do not overlap. -/
def globMatch (pre suf name : String) : Bool :=
  listPre pre.toList name.toList &&
  listPre suf.toList.reverse name.toList.reverse &&
  decide (pre.length + suf.length ≤ name.length)

/-- The pattern `get_recordings` globs the clips directory with:
`f"{camera_id}_*.mp4"` when a camera id is given, `"*.mp4"` otherwise. -/
def clipPattern (camera_id : Option String) (name : String) : Bool :=
  match camera_id with
  | some cid => globMatch (cid ++ "_") ".mp4" name
  | none => globMatch "" ".mp4" name

def insertByCreatedDesc (r : RecordingInfo) :
    List RecordingInfo → List RecordingInfo
  | [] => [r]
  | x :: xs =>
      if x.created ≤ r.created then r :: x :: xs
      else x :: insertByCreatedDesc r xs

/-- `sorted(recordings, key=..., reverse=True)`: most recent first. -/
def sortByCreatedDesc : List RecordingInfo → List RecordingInfo
  | [] => []
  | x :: xs => insertByCreatedDesc x (sortByCreatedDesc xs)

/-- `RecordingManager.get_recordings`. Oracles: `settingsResult` is the
read of `storage.retention_period_hours` (`error` = the read raised;
`ok none` = key absent, so the `hours` argument is the fallback default;
`ok (some r)` = the setting's value `r`); `globbed` is the clips-directory
listing (`error` = the scan raised); `statOk` says whether the per-file
`stat` calls succeed. A scan or setting-read failure is caught by the outer
handler and yields `[]`; a stat failure is caught by the per-file handler
and skips only that file. The glob's pattern, the mtime window (strict)
against `now - retention·3600` seconds, and the descending sort by the
`created` field mirror the source. -/
def get_recordings (settingsResult : Except Unit (Option Int)) (hours : Int)
    (now : Int) (globbed : Except Unit (List FileEntry))
    (statOk : String → Bool) (camera_id : Option String) :
    List RecordingInfo :=
  match settingsResult with
  | .error _ => []
  | .ok setting =>
    match globbed with
    | .error _ => []
    | .ok files =>
      let retention_hours := setting.getD hours
      let cutoff_time := now - retention_hours * 3600
      sortByCreatedDesc
        ((files.filter (fun f =>
            clipPattern camera_id f.name && statOk f.name &&
              decide (f.mtime > cutoff_time))).map recInfo)

/-- One directory pass of `RecordingManager._cleanup_old_files`: each file
older than the cutoff is unlinked; `unlinkOk` says whether the stat and
unlink of a file succeed — on failure the error is caught per-file and the
file survives, and the remaining files are still processed. Returns the
surviving files. -/
def sweepDir (cutoff_time : Int) (unlinkOk : String → Bool) :
    List FileEntry → List FileEntry
  | [] => []
  | f :: rest =>
      if f.mtime < cutoff_time && unlinkOk f.name then
        sweepDir cutoff_time unlinkOk rest
      else
        f :: sweepDir cutoff_time unlinkOk rest

/-- The three managed directories. -/
structure Dirs where
  snapshots : List FileEntry
  clips : List FileEntry
  thumbnails : List FileEntry
  deriving DecidableEq, Repr

/-- One cycle of the `_cleanup_old_files` loop: read the retention hours
(default 7) and the auto-cleanup flag (default true) fresh from the
settings; if cleanup is enabled, sweep the snapshots, clips and thumbnails
directories against the cutoff `now - retention·3600` seconds. -/
def cleanup_cycle (retentionSetting : Option Int) (autoCleanup : Option Bool)
    (now : Int) (unlinkOk : String → Bool) (d : Dirs) : Dirs :=
  let retention_hours := retentionSetting.getD 7
  if autoCleanup.getD true then
    let cutoff_time := now - retention_hours * 3600
    ⟨sweepDir cutoff_time unlinkOk d.snapshots,
     sweepDir cutoff_time unlinkOk d.clips,
     sweepDir cutoff_time unlinkOk d.thumbnails⟩
  else d

/-! ### Sorting lemmas -/

theorem insertByCreatedDesc_perm (r : RecordingInfo)
    (l : List RecordingInfo) :
    List.Perm (insertByCreatedDesc r l) (r :: l) := by
  induction l with
  | nil => exact List.Perm.refl _
  | cons x xs ih =>
      simp only [insertByCreatedDesc]
      split
      · exact List.Perm.refl _
      · exact (ih.cons x).trans (List.Perm.swap r x xs)

theorem sortByCreatedDesc_perm (l : List RecordingInfo) :
    List.Perm (sortByCreatedDesc l) l := by
  induction l with
  | nil => exact List.Perm.refl _
  | cons x xs ih =>
      exact (insertByCreatedDesc_perm x (sortByCreatedDesc xs)).trans
        (ih.cons x)

theorem insertByCreatedDesc_sorted (r : RecordingInfo)
    (l : List RecordingInfo)
    (h : l.Pairwise (fun a b => b.created ≤ a.created)) :
    (insertByCreatedDesc r l).Pairwise
      (fun a b => b.created ≤ a.created) := by
  induction l with
  | nil => simp [insertByCreatedDesc]
  | cons x xs ih =>
      simp only [insertByCreatedDesc]
      rcases List.pairwise_cons.mp h with ⟨hx, hxs⟩
      by_cases hc : x.created ≤ r.created
      · rw [if_pos hc]
        refine List.pairwise_cons.mpr ⟨?_, h⟩
        intro b hb
        rcases List.mem_cons.mp hb with rfl | hb'
        · exact hc
        · exact le_trans (hx b hb') hc
      · rw [if_neg hc]
        refine List.pairwise_cons.mpr ⟨?_, ih hxs⟩
        intro b hb
        have hb2 := (insertByCreatedDesc_perm r xs).mem_iff.mp hb
        rcases List.mem_cons.mp hb2 with rfl | hb'
        · omega
        · exact hx b hb'

theorem sortByCreatedDesc_sorted (l : List RecordingInfo) :
    (sortByCreatedDesc l).Pairwise (fun a b => b.created ≤ a.created) := by
  induction l with
  | nil => simp [sortByCreatedDesc]
  | cons x xs ih => exact insertByCreatedDesc_sorted x _ ih

/-! ## Claim C8 -/

/-- C8 (counterexample): with the retention setting present and equal to
1 hour and the `hours` argument equal to 7, a "cam1"-prefixed `.mp4` clip
modified 3 hours ago — within the last 7 hours — is excluded from the
result: the window is the retention setting, not the `hours` argument. -/
theorem C8_hours_ignored_counterexample :
    get_recordings (Except.ok (some 1)) 7 100000
      (Except.ok [⟨"cam1_a.mp4", 100000 - 3 * 3600, 5⟩])
      (fun _ => true) (some "cam1") = [] ∧
    ((100000 : Int) - 3 * 3600 > 100000 - 7 * 3600) ∧
    clipPattern (some "cam1") "cam1_a.mp4" = true := by
  refine ⟨rfl, by decide, by decide⟩

/-- C8 (amended): with the directory scan and all stat calls succeeding,
`get_recordings` returns exactly the clips-directory files matching the
glob `{cameraId}_*.mp4` whose modification time is strictly newer than
`now` minus R hours — where R is the `storage.retention_period_hours`
setting when present and the `hours` argument only as its absent-default —
sorted by the `created` (modification-time) field, most recent first. -/
theorem C8_recordings_window (setting : Option Int) (hours now : Int)
    (files : List FileEntry) (cid : String) :
    List.Perm
      (get_recordings (Except.ok setting) hours now (Except.ok files)
        (fun _ => true) (some cid))
      ((files.filter (fun f => clipPattern (some cid) f.name &&
          decide (f.mtime > now - setting.getD hours * 3600))).map
        recInfo) ∧
    (get_recordings (Except.ok setting) hours now (Except.ok files)
        (fun _ => true) (some cid)).Pairwise
      (fun a b => b.created ≤ a.created) := by
  constructor
  · simp only [get_recordings, Bool.and_true]
    exact sortByCreatedDesc_perm _
  · simp only [get_recordings]
    exact sortByCreatedDesc_sorted _

/-! ## Claim C9 -/

theorem sweepDir_eq_filter (cutoff : Int) (u : String → Bool)
    (l : List FileEntry) :
    sweepDir cutoff u l
      = l.filter (fun f => !(decide (f.mtime < cutoff) && u f.name)) := by
  induction l with
  | nil => rfl
  | cons f rest ih =>
      simp only [sweepDir, List.filter_cons, ih]
      by_cases hc : (decide (f.mtime < cutoff) && u f.name) = true
      · simp [hc]
      · rw [Bool.not_eq_true] at hc
        simp [hc]

/-- C9: in a sweep cycle with auto-cleanup enabled and retention window R
(the setting when present, default 7), each of the snapshots, clips and
thumbnails directories is swept against the cutoff `now − R·3600`: every
file older than the cutoff whose deletion succeeds is removed, every file
at least as new as the cutoff survives, and a failed deletion keeps only
that file while the remaining files of the directory are still
processed. -/
theorem C9_cleanup_retention (retSetting : Option Int) (auto : Option Bool)
    (now : Int) (unlinkOk : String → Bool) (d : Dirs)
    (henabled : auto.getD true = true) :
    cleanup_cycle retSetting auto now unlinkOk d
      = ⟨sweepDir (now - retSetting.getD 7 * 3600) unlinkOk d.snapshots,
         sweepDir (now - retSetting.getD 7 * 3600) unlinkOk d.clips,
         sweepDir (now - retSetting.getD 7 * 3600) unlinkOk d.thumbnails⟩ ∧
    (∀ (l : List FileEntry) (f : FileEntry), f ∈ l →
      f.mtime < now - retSetting.getD 7 * 3600 → unlinkOk f.name = true →
      f ∉ sweepDir (now - retSetting.getD 7 * 3600) unlinkOk l) ∧
    (∀ (l : List FileEntry) (f : FileEntry), f ∈ l →
      ¬ (f.mtime < now - retSetting.getD 7 * 3600) →
      f ∈ sweepDir (now - retSetting.getD 7 * 3600) unlinkOk l) ∧
    (∀ (f : FileEntry) (rest : List FileEntry),
      f.mtime < now - retSetting.getD 7 * 3600 → unlinkOk f.name = false →
      sweepDir (now - retSetting.getD 7 * 3600) unlinkOk (f :: rest)
        = f :: sweepDir (now - retSetting.getD 7 * 3600) unlinkOk rest) := by
  refine ⟨by simp [cleanup_cycle, henabled], ?_, ?_, ?_⟩
  · intro l f hf hold hok
    rw [sweepDir_eq_filter]
    simp [List.mem_filter, hold, hok]
  · intro l f hf hnew
    rw [sweepDir_eq_filter]
    exact List.mem_filter.mpr ⟨hf, by simp [hnew]⟩
  · intro f rest hold hfail
    simp only [sweepDir]
    rw [if_neg (by simp [hfail])]

theorem C9_cleanup_retention_witness :
    cleanup_cycle none (some true) 10000 (fun _ => true)
        ⟨[⟨"old.jpg", -30000, 1⟩], [], [⟨"new.mp4", 9000, 2⟩]⟩
      = ⟨sweepDir (10000 - 7 * 3600) (fun _ => true)
           [⟨"old.jpg", -30000, 1⟩],
         sweepDir (10000 - 7 * 3600) (fun _ => true) [],
         sweepDir (10000 - 7 * 3600) (fun _ => true)
           [⟨"new.mp4", 9000, 2⟩]⟩ ∧
    (⟨"old.jpg", -30000, 1⟩ : FileEntry) ∉
      sweepDir (10000 - 7 * 3600) (fun _ => true)
        [⟨"old.jpg", -30000, 1⟩] ∧
    (⟨"new.mp4", 9000, 2⟩ : FileEntry) ∈
      sweepDir (10000 - 7 * 3600) (fun _ => true) [⟨"new.mp4", 9000, 2⟩] ∧
    sweepDir (10000 - 7 * 3600) (fun _ => false)
        [⟨"old.jpg", -30000, 1⟩, ⟨"old2.jpg", -30000, 1⟩]
      = ⟨"old.jpg", -30000, 1⟩ ::
          sweepDir (10000 - 7 * 3600) (fun _ => false)
            [⟨"old2.jpg", -30000, 1⟩] := by
  have h := C9_cleanup_retention none (some true) 10000 (fun _ => true)
    ⟨[⟨"old.jpg", -30000, 1⟩], [], [⟨"new.mp4", 9000, 2⟩]⟩ (by decide)
  have h' := C9_cleanup_retention none (some true) 10000 (fun _ => false)
    ⟨[], [], []⟩ (by decide)
  exact ⟨h.1,
    h.2.1 [⟨"old.jpg", -30000, 1⟩] ⟨"old.jpg", -30000, 1⟩ (by decide)
      (by decide) (by decide),
    h.2.2.1 [⟨"new.mp4", 9000, 2⟩] ⟨"new.mp4", 9000, 2⟩ (by decide)
      (by decide),
    h'.2.2.2 ⟨"old.jpg", -30000, 1⟩ [⟨"old2.jpg", -30000, 1⟩] (by decide)
      rfl⟩

/-! ## Claim C10 -/

/-- C10: `get_recordings` is total at its interface: a failure of the
retention-setting read or of the clips-directory scan is caught and yields
the empty list, and with both succeeding the result contains exactly the
images of the files that pass the glob pattern, whose stat succeeded, and
whose modification time is inside the window — so a stat failure on one
file excludes only that file. -/
theorem C10_recordings_total (hours now : Int) (statOk : String → Bool)
    (cidOpt : Option String) :
    (∀ globbed,
      get_recordings (Except.error ()) hours now globbed statOk cidOpt
        = []) ∧
    (∀ settingsResult,
      get_recordings settingsResult hours now (Except.error ()) statOk
        cidOpt = []) ∧
    (∀ (setting : Option Int) (files : List FileEntry) (r : RecordingInfo),
      r ∈ get_recordings (Except.ok setting) hours now (Except.ok files)
            statOk cidOpt ↔
      ∃ f, f ∈ files ∧
        (clipPattern cidOpt f.name && statOk f.name &&
          decide (f.mtime > now - setting.getD hours * 3600)) = true ∧
        r = recInfo f) := by
  refine ⟨fun _ => rfl, ?_, ?_⟩
  · intro sr
    cases sr <;> rfl
  · intro setting files r
    simp only [get_recordings]
    rw [(sortByCreatedDesc_perm _).mem_iff]
    simp only [List.mem_map, List.mem_filter]
    constructor
    · rintro ⟨f, ⟨hfl, hp⟩, hr⟩
      exact ⟨f, hfl, hp, hr.symm⟩
    · rintro ⟨f, hfl, hp, hr⟩
      exact ⟨f, ⟨hfl, hp⟩, hr.symm⟩

end DashCam
